import Mathlib

/-!
Verification development for a ClickUp-to-Slack reminder bot.

The embedding below models the repository's Python sources:
  * `clickup_fetcher.py` — raw-task classification (`fetch_tasks_from_list`);
  * `gpt_generator.py`   — name mapping and message composition;
  * `main.py`            — the dispatch loop (`run_bot`);
  * `slack_sender.py`    — `send_to_slack` (raises on any delivery failure).

Machine integers are modelled as `Int`/`Nat`; epoch timestamps are integer
milliseconds; Python functions that can raise are modelled with
`Option`/`Except`.
-/

/- ### Decimal printing and parsing helpers

`intToDecimal` models the Python f-string rendering of an `int`
(e.g. `f"overdue_{days_overdue}"`); `pyIntChars?` models `int(s)` on a
string, returning `none` where Python raises `ValueError`;
`pySplitChars` models `str.split(sep)`; `strStartsWith` models
`str.startswith`; `strContains` models Python's substring test
`needle in hay`; `pyGet` models Python list indexing `l[i]`, including
negative indices, returning `none` where Python raises `IndexError`. -/

def digitChar (n : Nat) : Char :=
  match n with
  | 0 => '0' | 1 => '1' | 2 => '2' | 3 => '3' | 4 => '4'
  | 5 => '5' | 6 => '6' | 7 => '7' | 8 => '8' | _ => '9'

/-- Little-endian list of decimal digit characters of `n` (empty for 0). -/
def natToRev (n : Nat) : List Char :=
  match n with
  | 0 => []
  | m + 1 => digitChar ((m + 1) % 10) :: natToRev ((m + 1) / 10)
decreasing_by exact Nat.div_lt_self (Nat.succ_pos m) (by omega)

def natToDecimal (n : Nat) : String :=
  if n = 0 then "0" else ⟨(natToRev n).reverse⟩

/-- Models Python `str(d)` / f-string interpolation for an integer. -/
def intToDecimal (d : Int) : String :=
  if d < 0 then "-" ++ natToDecimal (-d).toNat else natToDecimal d.toNat

def digitVal? (c : Char) : Option Nat :=
  if 48 ≤ c.toNat ∧ c.toNat ≤ 57 then some (c.toNat - 48) else none

def parseDigitsAux (acc : Nat) : List Char → Option Nat
  | [] => some acc
  | c :: cs =>
    match digitVal? c with
    | some v => parseDigitsAux (acc * 10 + v) cs
    | none => none

def parseDigits (l : List Char) : Option Nat :=
  if l = [] then none else parseDigitsAux 0 l

/-- Models Python `int(s)` on the characters of `s` (optional sign, then
decimal digits); `none` models a raised `ValueError`. -/
def pyIntChars? (l : List Char) : Option Int :=
  match l with
  | [] => none
  | c :: cs =>
    if c = '-' then (parseDigits cs).map (fun n => -(n : Int))
    else if c = '+' then (parseDigits cs).map (fun n => (n : Int))
    else (parseDigits (c :: cs)).map (fun n => (n : Int))

/-- Models Python `s.split(sep)` at the character-list level. -/
def pySplitChars (sep : Char) : List Char → List (List Char)
  | [] => [[]]
  | c :: cs =>
    let r := pySplitChars sep cs
    if c = sep then [] :: r
    else
      match r with
      | [] => [[c]]
      | h :: t => (c :: h) :: t

/-- Models Python `s.startswith(pre)`. -/
def strStartsWith (s pre : String) : Bool :=
  pre.data.isPrefixOf s.data

/-- Models Python's substring containment test `needle in hay`. -/
def strContains (hay needle : String) : Bool :=
  decide (needle.data <:+: hay.data)

/-- Models Python list indexing `l[i]` (negative indices wrap from the
end); `none` models a raised `IndexError`. -/
def pyGet (l : List String) (i : Int) : Option String :=
  if 0 ≤ i then l.get? i.toNat
  else if (-i).toNat ≤ l.length then l.get? (l.length - (-i).toNat) else none

/- ### Data model -/

/-- A raw timestamp field as delivered by the task source: either a value
that `int(...)` parses to an integer (epoch milliseconds), or a malformed
value on which `int(...)` raises. -/
inductive RawField where
  | num (n : Int)
  | malformed
deriving DecidableEq, Repr

/-- Models `int(field) ` succeeding (`some` milliseconds) or raising. -/
def parseMillis : RawField → Option Int
  | .num n => some n
  | .malformed => none

/-- A raw task record as consumed by `fetch_tasks_from_list`
(`clickup_fetcher.py` lines 298-317): `assignees` is the extracted list of
assignee usernames. -/
structure RawTask where
  id : String
  name : String
  status : String
  due : Option RawField
  dateClosed : Option RawField
  assignees : List String
deriving DecidableEq, Repr

/-- One classified task row, modelling the 6-tuple
`(name, task_id, users, status, list_name, list_type)` appended to
`result` in `fetch_tasks_from_list`. -/
structure ClassifiedTask where
  name : String
  id : String
  assignees : List String
  status : String
  listName : String
  listType : String
deriving DecidableEq, Repr

/-- Epoch milliseconds to local calendar day ordinal (`tz` is the local
UTC offset in milliseconds): models `datetime.fromtimestamp(ms/1000).date()`
as days since the epoch. -/
def msToDay (tz ms : Int) : Int :=
  (ms + tz).fdiv 86400000

/- ### Task classifier

Models the categorization chain of `fetch_tasks_from_list`
(`clickup_fetcher.py` lines 320-370) for one task.  `nowMs` is the run
time in epoch milliseconds (`datetime.now()`), and the current local date
`today = datetime.today().date()` is `msToDay tz nowMs`.  A `none` result
models a task that is counted as skipped and produces no row. -/
def classify (tz nowMs : Int) (listName listType : String) (t : RawTask) :
    Option ClassifiedTask :=
  let today := msToDay tz nowMs
  if t.assignees = [] then
    some ⟨t.name, t.id, [], "unassigned", listName, listType⟩
  else if t.due = none ∧ t.status ≠ "complete" then
    some ⟨t.name, t.id, t.assignees, "no_due_date", listName, listType⟩
  else if t.status = "complete" then
    match t.dateClosed with
    | some f =>
      match parseMillis f with
      | some ms =>
        if nowMs - 86400000 ≤ ms then
          some ⟨t.name, t.id, t.assignees, "completed", listName, listType⟩
        else none
      | none => none
    | none => none
  else
    match t.due with
    | some f =>
      match parseMillis f with
      | some ms =>
        let dueDay := msToDay tz ms
        if dueDay = today then
          some ⟨t.name, t.id, t.assignees, "due_today", listName, listType⟩
        else if dueDay < today then
          some ⟨t.name, t.id, t.assignees,
            "overdue_" ++ intToDecimal (today - dueDay), listName, listType⟩
        else none
      | none => none
    | none => none

/- ### Name mapper (`gpt_generator.py` lines 8-87)

`MentionConfig` models the JSON mapping document as read by
`load_user_mappings` / `get_slack_username` (`user_mappings` dict,
`default_mention` and `fallback_behavior` fields, with the same defaults
the code supplies via `.get`).  It is loaded once per run and read-only. -/
structure MentionConfig where
  user_mappings : List (String × String)
  default_mention : String
  fallback_behavior : String
deriving DecidableEq, Repr

/-- The built-in default configuration returned by `load_user_mappings`
when no mapping file exists. -/
def defaultMentionConfig : MentionConfig :=
  ⟨[], "@channel", "use_clickup_name"⟩

/-- Models `get_slack_username` (`gpt_generator.py` lines 28-61). -/
def get_slack_username (cfg : MentionConfig) (clickup_user : String) : String :=
  if clickup_user = "" ∨ clickup_user = "everyone" then "@channel"
  else
    match cfg.user_mappings.lookup clickup_user with
    | some slack_user_id =>
      if slack_user_id.startsWith "U" then "<@" ++ slack_user_id ++ ">"
      else "@" ++ slack_user_id
    | none =>
      if cfg.fallback_behavior = "use_clickup_name" then clickup_user
      else if cfg.fallback_behavior = "use_default" then cfg.default_mention
      else "@channel"

/-- The possible runtime shapes of the `assignees` argument of
`get_slack_usernames`: `None`, a single string, or a list of strings. -/
inductive AssigneesArg where
  | nullArg
  | strArg (s : String)
  | listArg (l : List String)
deriving DecidableEq, Repr

/-- One step of the duplicate-avoiding accumulation loop in
`get_slack_usernames` (`if mention not in mentions: mentions.append`). -/
def mentionStep (cfg : MentionConfig) (acc : List String) (a : String) :
    List String :=
  let m := get_slack_username cfg a
  if m ∈ acc then acc else acc ++ [m]

/-- Models `get_slack_usernames` (`gpt_generator.py` lines 63-87). -/
def get_slack_usernames (cfg : MentionConfig) : AssigneesArg → String
  | .nullArg => "@channel"
  | .strArg s => if s = "" then "@channel" else get_slack_username cfg s
  | .listArg l =>
    if l = [] then "@channel"
    else
      let mentions := l.foldl (mentionStep cfg) []
      match mentions with
      | [] => "@channel"
      | [a] => a
      | [a, b] => a ++ " and " ++ b
      | ms => String.intercalate ", " ms.dropLast ++ ", and " ++ ms.getLastD ""

/- ### Message composer (`gpt_generator.py` lines 89-344)

The generation backend (`client.chat.completions.create`) is modelled as a
function from the system instruction and prompt to `Except`: `.ok text` is
a successful response body and `.error e` a raised backend exception. -/
def GenBackend := String → String → Except String String

/-- The hard-coded privileged identity in `generate_message`
(`ceo_user_id = "U03MNP6KBQC"`). -/
def ceo_user_id : String := "U03MNP6KBQC"

def ceoMention : String := "<@" ++ ceo_user_id ++ ">"

/-- Models the `is_ceo_task` test of `generate_message` line 106:
`any(assignee for assignee in assignees if get_slack_username(assignee) == f"<@{ceo_user_id}>")`
(the generator yields the assignee itself, so a falsy assignee never
counts). -/
def is_ceo_task (cfg : MentionConfig) (assignees : List String) : Bool :=
  assignees.any (fun a => get_slack_username cfg a == ceoMention && a != "")

/-- The per-category prompt dictionary of `generate_message`
(lines 114-120) as a lookup: `none` models `status not in prompts`. -/
def category_prompt (user_mentions task_name status : String) : Option String :=
  if status = "completed" then
    some ("Write a short funny message (max 15 words) praising " ++
      user_mentions ++ " for finishing the task \x27" ++ task_name ++
      "\x27. Use very simple words like a 5-year-old would understand. Make it about the task. Add 1 emoji.")
  else if status = "due_today" then
    some ("Write a short funny reminder (max 15 words) telling " ++
      user_mentions ++ " that their task \x27" ++ task_name ++
      "\x27 is due today. Use very simple words like talking to a friend. Make it about the task. Add 1 emoji.")
  else if status = "overdue" then
    some ("Write a short funny message (max 15 words) telling " ++
      user_mentions ++ " that their task \x27" ++ task_name ++
      "\x27 is late. Use very simple words, be nice and friendly. Make it about the task. Add 1 emoji.")
  else if status = "unassigned" then
    some ("Write a short funny message (max 15 words) asking who wants to take the task \x27" ++
      task_name ++
      "\x27. Use very simple words like talking to friends. Make it about the task. Add 1 emoji.")
  else if status = "no_due_date" then
    some ("Write a short funny message (max 15 words) about " ++
      user_mentions ++ "\x27s task \x27" ++ task_name ++
      "\x27 having no due date. Use very simple words everyone knows. Make it about the task. Add 1 emoji.")
  else none

/-- The three always-playful CEO prompt templates of
`generate_overdue_message` (lines 171-175). -/
def ceoPromptList (task_name : String) (days_overdue : Int) : List String :=
  [ "Write a funny message (max 15 words) about the CEO being " ++
      intToDecimal days_overdue ++ " days late on \x27" ++ task_name ++
      "\x27. Be playful and respectful, like joking with your boss. Use simple words. Add 1 emoji.",
    "Write a funny message (max 15 words) about the boss taking " ++
      intToDecimal days_overdue ++ " days extra on \x27" ++ task_name ++
      "\x27. Be funny but respectful. Use simple words. Add 1 emoji.",
    "Write a funny message (max 15 words) about the CEO\x27s \x27" ++
      task_name ++ "\x27 being " ++ intToDecimal days_overdue ++
      " days overdue. Make it funny and nice. Use simple words. Add 1 emoji." ]

/-- The day-bucket prompt templates for regular employees in
`generate_overdue_message` (lines 179-187), one per register. -/
def lightPromptText (task_name user_mentions : String) (days_overdue : Int) : String :=
  "Write a funny message (max 15 words) that " ++ user_mentions ++
  "\x27s task \x27" ++ task_name ++ "\x27 is " ++ intToDecimal days_overdue ++
  " days late. Keep it light and funny. Use simple words. Add 1 emoji."

def firmerPromptText (task_name user_mentions : String) (days_overdue : Int) : String :=
  "Write a firmer reminder (max 15 words) that " ++ user_mentions ++
  "\x27s task \x27" ++ task_name ++ "\x27 is " ++ intToDecimal days_overdue ++
  " days late. Be more serious but not mean. Use simple words. Add 1 emoji."

def seriousPromptText (task_name user_mentions : String) (days_overdue : Int) : String :=
  "Write a serious message (max 15 words) that " ++ user_mentions ++
  "\x27s task \x27" ++ task_name ++ "\x27 is " ++ intToDecimal days_overdue ++
  " days late. Be firm and direct. Use simple words. Add 1 emoji."

def sternPromptText (task_name user_mentions : String) (days_overdue : Int) : String :=
  "Write a very serious message (max 15 words) that " ++ user_mentions ++
  "\x27s task \x27" ++ task_name ++ "\x27 is " ++ intToDecimal days_overdue ++
  " days late. Be stern but professional. Use simple words. Add 1 emoji."

/-- The prompt-selection block of `generate_overdue_message`
(lines 169-187): CEO tasks index the playful template list with
`min(days_overdue - 1, 2)` (`none` models an `IndexError` escaping the
function); regular employees branch on the day buckets. -/
def overdue_prompt (task_name user_mentions : String) (days_overdue : Int)
    (isCeoTask : Bool) : Option String :=
  if isCeoTask then
    pyGet (ceoPromptList task_name days_overdue) (min (days_overdue - 1) 2)
  else if days_overdue ≤ 2 then
    some (lightPromptText task_name user_mentions days_overdue)
  else if days_overdue ≤ 5 then
    some (firmerPromptText task_name user_mentions days_overdue)
  else if days_overdue ≤ 10 then
    some (seriousPromptText task_name user_mentions days_overdue)
  else
    some (sternPromptText task_name user_mentions days_overdue)

/-- The five always-respectful CEO fallback messages of
`get_ceo_overdue_fallback` (lines 227-233). -/
def ceoFallbackList (user_mentions : String) (days_overdue : Int) : List String :=
  [ "😄 " ++ user_mentions ++ ", even the best boss needs a little nudge sometimes! " ++
      intToDecimal days_overdue ++ " days and counting!",
    "🎩 " ++ user_mentions ++ ", your task is taking a little vacation! " ++
      intToDecimal days_overdue ++ " days of fun!",
    "👑 " ++ user_mentions ++ ", even kings take their time! " ++
      intToDecimal days_overdue ++ " days of royal delay!",
    "🌟 " ++ user_mentions ++ ", your task is aging like fine wine! " ++
      intToDecimal days_overdue ++ " days of perfection!",
    "🚀 " ++ user_mentions ++ ", slow and steady wins the race! " ++
      intToDecimal days_overdue ++ " days of careful thinking!" ]

/-- Models `get_ceo_overdue_fallback` (lines 225-237); the index is
`min(days_overdue - 1, len(ceo_messages) - 1)`. -/
def get_ceo_overdue_fallback (user_mentions : String) (days_overdue : Int) :
    Option String :=
  pyGet (ceoFallbackList user_mentions days_overdue) (min (days_overdue - 1) 4)

/-- The three light fallback messages of `get_overdue_fallback` for days 1-2. -/
def lightFallbackList (user_mentions : String) (days_overdue : Int) : List String :=
  [ "😄 " ++ user_mentions ++ ", your task is taking a little nap! " ++
      intToDecimal days_overdue ++ " days of rest!",
    "🐌 " ++ user_mentions ++ ", your task is moving like a snail! " ++
      intToDecimal days_overdue ++ " days slow!",
    "🎈 " ++ user_mentions ++ ", your task is floating away! " ++
      intToDecimal days_overdue ++ " days in the air!" ]

def firmerFallbackText (user_mentions : String) (days_overdue : Int) : String :=
  "🔔 " ++ user_mentions ++ ", " ++ intToDecimal days_overdue ++
  " days late now. Time to catch up!"

def seriousFallbackText (user_mentions : String) (days_overdue : Int) : String :=
  "🚨 " ++ user_mentions ++ ", this is " ++ intToDecimal days_overdue ++
  " days late. Please finish it soon!"

def sternFallbackText (user_mentions : String) (days_overdue : Int) : String :=
  "⚠️ " ++ user_mentions ++ ", " ++ intToDecimal days_overdue ++
  " days late is too much. We need this done now!"

/-- Models `get_overdue_fallback` (lines 239-254): the escalating
fallback messages for regular employees. -/
def get_overdue_fallback (user_mentions : String) (days_overdue : Int) :
    Option String :=
  if days_overdue ≤ 2 then
    pyGet (lightFallbackList user_mentions days_overdue) (min (days_overdue - 1) 2)
  else if days_overdue ≤ 5 then
    some (firmerFallbackText user_mentions days_overdue)
  else if days_overdue ≤ 10 then
    some (seriousFallbackText user_mentions days_overdue)
  else
    some (sternFallbackText user_mentions days_overdue)

/-- Models `generate_overdue_message` (`gpt_generator.py` lines 166-223).
The prompt is selected before the `try` block, so an `IndexError` there
(or in the fallback helpers inside the `except` handler) escapes as
`.error`; a backend failure is recovered by the fallback text. -/
def generate_overdue_message (gen : GenBackend)
    (task_name task_id user_mentions : String) (days_overdue : Int)
    (isCeoTask : Bool) : Except String String :=
  match overdue_prompt task_name user_mentions days_overdue isCeoTask with
  | none => .error "IndexError"
  | some prompt =>
    let system_content :=
      "You write messages using very simple English. Use words that a 5-year-old can understand. No big words, no jargon, no technical terms." ++
      (if isCeoTask then " Always be respectful and funny when talking about the CEO/boss." else "")
    match gen system_content prompt with
    | .ok body =>
      .ok (body.trim ++ "\n" ++ task_id ++ ": " ++ task_name)
    | .error _ =>
      let fb :=
        if isCeoTask then get_ceo_overdue_fallback user_mentions days_overdue
        else get_overdue_fallback user_mentions days_overdue
      match fb with
      | some fallback_humor =>
        .ok (fallback_humor ++ "\n" ++ task_id ++ ": " ++ task_name)
      | none => .error "IndexError"

/-- The keyword-bucket task-type detection of `get_fallback_message`
(`gpt_generator.py` lines 263-283), by substring match on the lowercased
task name. -/
def detectTaskType (task_lower : String) : String :=
  if ["bug", "fix", "error", "issue", "broken"].any
      (fun w => strContains task_lower w) then "bug"
  else if ["test", "testing", "qa", "quality"].any
      (fun w => strContains task_lower w) then "test"
  else if ["design", "ui", "ux", "interface", "mockup"].any
      (fun w => strContains task_lower w) then "design"
  else if ["api", "endpoint", "service", "backend"].any
      (fun w => strContains task_lower w) then "api"
  else if ["database", "db", "query", "sql"].any
      (fun w => strContains task_lower w) then "database"
  else if ["deploy", "release", "production", "launch"].any
      (fun w => strContains task_lower w) then "deploy"
  else if ["document", "docs", "readme", "guide"].any
      (fun w => strContains task_lower w) then "docs"
  else if ["meeting", "call", "discuss", "review"].any
      (fun w => strContains task_lower w) then "meeting"
  else "general"

/-- The nested `contextual_messages` dictionary lookup of
`get_fallback_message` (`gpt_generator.py` lines 286-344):
`contextual_messages.get(status, {}).get(task_type, default)`. -/
def contextualMessage (user_mentions status task_type : String) : Option String :=
  if status = "completed" then
    if task_type = "bug" then some ("🐛 " ++ user_mentions ++ " fixed that bug! Nice work!")
    else if task_type = "test" then some ("✅ " ++ user_mentions ++ " tested it! All good!")
    else if task_type = "design" then some ("🎨 " ++ user_mentions ++ " made it look great!")
    else if task_type = "api" then some ("🔌 " ++ user_mentions ++ " connected it! Works now!")
    else if task_type = "database" then some ("💾 " ++ user_mentions ++ " organized the data! Clean!")
    else if task_type = "deploy" then some ("🚀 " ++ user_mentions ++ " put it live! Success!")
    else if task_type = "docs" then some ("📚 " ++ user_mentions ++ " wrote it down! Clear!")
    else if task_type = "meeting" then some ("🤝 " ++ user_mentions ++ " had the meeting! Done!")
    else if task_type = "general" then some ("🎉 Great job " ++ user_mentions ++ "! Task done!")
    else none
  else if status = "due_today" then
    if task_type = "bug" then some ("🐛 Hey " ++ user_mentions ++ ", fix that bug today!")
    else if task_type = "test" then some ("🧪 Hey " ++ user_mentions ++ ", test it today!")
    else if task_type = "design" then some ("🎨 Hey " ++ user_mentions ++ ", make it pretty today!")
    else if task_type = "api" then some ("🔌 Hey " ++ user_mentions ++ ", connect it today!")
    else if task_type = "database" then some ("💾 Hey " ++ user_mentions ++ ", organize data today!")
    else if task_type = "deploy" then some ("🚀 Hey " ++ user_mentions ++ ", put it live today!")
    else if task_type = "docs" then some ("📚 Hey " ++ user_mentions ++ ", write it today!")
    else if task_type = "meeting" then some ("🤝 Hey " ++ user_mentions ++ ", meeting today!")
    else if task_type = "general" then some ("⏰ Hey " ++ user_mentions ++ ", task due today!")
    else none
  else if status = "overdue" then
    if task_type = "bug" then some ("🐛 " ++ user_mentions ++ ", that bug is still there!")
    else if task_type = "test" then some ("🧪 " ++ user_mentions ++ ", still need to test it!")
    else if task_type = "design" then some ("🎨 " ++ user_mentions ++ ", still need to design it!")
    else if task_type = "api" then some ("🔌 " ++ user_mentions ++ ", still need to connect it!")
    else if task_type = "database" then some ("💾 " ++ user_mentions ++ ", data still messy!")
    else if task_type = "deploy" then some ("🚀 " ++ user_mentions ++ ", still need to put it live!")
    else if task_type = "docs" then some ("📚 " ++ user_mentions ++ ", still need to write it!")
    else if task_type = "meeting" then some ("🤝 " ++ user_mentions ++ ", still need that meeting!")
    else if task_type = "general" then some ("🚨 " ++ user_mentions ++ ", task is late!")
    else none
  else if status = "unassigned" then
    if task_type = "bug" then some "🐛 Who wants to fix this bug?"
    else if task_type = "test" then some "🧪 Who wants to test this?"
    else if task_type = "design" then some "🎨 Who wants to design this?"
    else if task_type = "api" then some "🔌 Who wants to connect this?"
    else if task_type = "database" then some "💾 Who wants to organize data?"
    else if task_type = "deploy" then some "🚀 Who wants to put this live?"
    else if task_type = "docs" then some "📚 Who wants to write this?"
    else if task_type = "meeting" then some "🤝 Who wants to join this meeting?"
    else if task_type = "general" then some "🤷 Who wants this task?"
    else none
  else if status = "no_due_date" then
    if task_type = "bug" then some ("🐛 " ++ user_mentions ++ ", when will you fix this bug?")
    else if task_type = "test" then some ("🧪 " ++ user_mentions ++ ", when will you test this?")
    else if task_type = "design" then some ("🎨 " ++ user_mentions ++ ", when will you design this?")
    else if task_type = "api" then some ("🔌 " ++ user_mentions ++ ", when will you connect this?")
    else if task_type = "database" then some ("💾 " ++ user_mentions ++ ", when will you organize this?")
    else if task_type = "deploy" then some ("🚀 " ++ user_mentions ++ ", when will you put this live?")
    else if task_type = "docs" then some ("📚 " ++ user_mentions ++ ", when will you write this?")
    else if task_type = "meeting" then some ("🤝 " ++ user_mentions ++ ", when is this meeting?")
    else if task_type = "general" then some ("📅 " ++ user_mentions ++ ", when is this due?")
    else none
  else none

/-- Models `get_fallback_message` (`gpt_generator.py` lines 256-344). -/
def get_fallback_message (cfg : MentionConfig) (task_name : String)
    (assignees : List String) (status : String) : String :=
  let user_mentions := get_slack_usernames cfg (.listArg assignees)
  let task_type := detectTaskType task_name.toLower
  (contextualMessage user_mentions status task_type).getD
    ("Task update for " ++ user_mentions)

/-- Models `generate_message` (`gpt_generator.py` lines 89-164).
`api_key` is `os.getenv("OPENAI_API_KEY")` (`none`/empty are falsy and
raise `ValueError`); `.error` models an exception escaping the function,
`.ok` its returned message string. -/
def generate_message (cfg : MentionConfig) (gen : GenBackend)
    (task_name task_id : String) (assignees : List String) (status : String)
    (api_key : Option String) : Except String String :=
  if api_key = none ∨ api_key = some "" then
    .error "Missing OPENAI_API_KEY environment variable"
  else
    let user_mentions := get_slack_usernames cfg (.listArg assignees)
    let isCeoTask := is_ceo_task cfg assignees
    if strStartsWith status "overdue_" then
      match (pySplitChars '_' status.data).get? 1 with
      | none => .error "IndexError"
      | some part =>
        match pyIntChars? part with
        | none => .error "invalid literal for int"
        | some days_overdue =>
          generate_overdue_message gen task_name task_id user_mentions
            days_overdue isCeoTask
    else
      match category_prompt user_mentions task_name status with
      | none => .error ("Unknown status type: " ++ status)
      | some prompt =>
        match gen "You write short, funny messages using very simple English. Use words that a 5-year-old can understand. No big words, no jargon, no technical terms. Talk like you\x27re chatting with friends. Be funny but keep it simple and friendly." prompt with
        | .ok body =>
          .ok (body.trim ++ "\n" ++ task_id ++ ": " ++ task_name)
        | .error _ =>
          let fallback_humor := get_fallback_message cfg task_name assignees status
          .ok (fallback_humor ++ "\n" ++ task_id ++ ": " ++ task_name)

/- ### Dispatch loop (`main.py` lines 24-128)

The per-task body of `run_bot` is `generate_message` then
`send_to_slack`, both inside one `try`; its `except` handler counts the
failure and `continue`s.  The 3-minute `time.sleep` sits inside the
`try`, after the send, guarded by `if i < len(tasks)`.  With a validated
configuration `generate_message` never raises (proved below), so each
task's outcome is determined by whether `send_to_slack` raises; the loop
is modelled over the list of those per-task send outcomes (`true` =
delivered). -/
inductive DispatchEvent where
  | sent (i : Nat)
  | sendFailed (i : Nat)
  | delayed (i : Nat)
deriving DecidableEq, Repr

/-- The `for i, task_data in enumerate(tasks, 1)` loop of `run_bot`
(`main.py` lines 70-117), emitting the sequence of sends, send failures
and pacing delays.  `rs ≠ []` is exactly the guard `i < len(tasks)`. -/
def dispatch_go (i : Nat) : List Bool → List DispatchEvent
  | [] => []
  | r :: rs =>
    if r then
      .sent i :: ((if rs = [] then [] else [.delayed i]) ++ dispatch_go (i + 1) rs)
    else
      .sendFailed i :: dispatch_go (i + 1) rs

def dispatch_loop (results : List Bool) : List DispatchEvent :=
  dispatch_go 1 results

/-- Number of 3-minute pacing delays issued by a trace. -/
def countDelays (trace : List DispatchEvent) : Nat :=
  trace.countP (fun e => match e with | .delayed _ => true | _ => false)

/-- The `required_vars` list of `run_bot` (`main.py` line 39). -/
def required_vars : List String :=
  ["OPENAI_API_KEY", "SLACK_BOT_TOKEN", "SLACK_CHANNEL_ID", "CLICKUP_API_KEY"]

/-- Python truthiness test `not os.getenv(var)` on an environment value. -/
def envFalsy (v : Option String) : Bool :=
  v = none ∨ v = some ""

/-- Outcome of one `run_bot` invocation. -/
inductive RunResult where
  | weekendSkip
  | configError (missing : List String)
  | noTasks
  | finished (trace : List DispatchEvent)
deriving DecidableEq, Repr

/-- Models `run_bot` (`main.py` lines 24-128).  `weekday` is
`datetime.now().weekday()` (Monday = 0); `env` is `os.getenv`;
`sendResults` is the per-task send outcome list for the tasks the fetch
returned.  The weekend gate precedes the `try` block that validates the
required environment variables, so it precedes validation and fetching. -/
def run_bot (weekday : Nat) (env : String → Option String)
    (sendResults : List Bool) : RunResult :=
  if 5 ≤ weekday then .weekendSkip
  else
    let missing := required_vars.filter (fun v => envFalsy (env v))
    if missing ≠ [] then .configError missing
    else if sendResults = [] then .noTasks
    else .finished (dispatch_loop sendResults)

/- ### Definitions taken from the specification's words

These are used only on the specification side of refinement statements:
they follow the spec text, to be compared with the source embeddings
above. -/

/-- From the spec: de-duplicate a list keeping the first occurrence of
each element, preserving first-seen order (`seen` accumulates the
elements already emitted). -/
def dedup_first_aux (seen : List String) : List String → List String
  | [] => []
  | x :: xs =>
    if x ∈ seen then dedup_first_aux seen xs
    else x :: dedup_first_aux (seen ++ [x]) xs

def dedup_first (l : List String) : List String :=
  dedup_first_aux [] l

/-- From the spec: natural-language joining of mention tokens — one item
alone; two items as `A and B`; three or more Oxford-comma style
`A, B, and C`. -/
def oxford_join : List String → String
  | [] => ""
  | [a] => a
  | [a, b] => a ++ " and " ++ b
  | l => String.intercalate ", " l.dropLast ++ ", and " ++ l.getLastD ""

/-- The message registers named by the spec for overdue tasks. -/
inductive ToneRegister where
  | light
  | firmer
  | serious
  | stern
deriving DecidableEq, Repr

/-- From the spec: the day-bucket register selection for non-privileged
assignees — days 1-2 light/funny, 3-5 firmer, 6-10 serious, more than 10
stern-but-professional. -/
def bucketRegister (d : Int) : ToneRegister :=
  if d ≤ 2 then .light
  else if d ≤ 5 then .firmer
  else if d ≤ 10 then .serious
  else .stern

/-- The prompt template the source associates with each register. -/
def registerPromptText : ToneRegister → String → String → Int → String
  | .light => lightPromptText
  | .firmer => firmerPromptText
  | .serious => seriousPromptText
  | .stern => sternPromptText

/-- The status strings a classified task can carry, as produced by
`classify`: the four flat categories or an overdue tag with a positive
whole-day count. -/
def ClassifiedStatus (s : String) : Prop :=
  s = "completed" ∨ s = "due_today" ∨ s = "unassigned" ∨ s = "no_due_date" ∨
  ∃ d : Int, 1 ≤ d ∧ s = "overdue_" ++ intToDecimal d

/- ### Classifier theorems -/

/-- C1: every raw task with an empty assignee list is classified
`unassigned` with an empty assignee sequence in the result, regardless of
its status, due date and completion date, and regardless of run time —
the emptiness check is the first branch of the classifier. -/
theorem classify_empty_assignees_unassigned (tz nowMs : Int) (ln lt : String)
    (t : RawTask) (h : t.assignees = []) :
    classify tz nowMs ln lt t = some ⟨t.name, t.id, [], "unassigned", ln, lt⟩ := by
  simp [classify, h]

/-- Witness for C1 at a concrete task whose other fields would otherwise
classify it as completed. -/
theorem classify_empty_assignees_unassigned_witness :
    (RawTask.mk "t1" "Fix login bug" "complete" none (some (.num 1700000000000)) []).assignees = [] ∧
    classify 0 1700000000000 "L" "general"
        (RawTask.mk "t1" "Fix login bug" "complete" none (some (.num 1700000000000)) []) =
      some ⟨"Fix login bug", "t1", [], "unassigned", "L", "general"⟩ :=
  ⟨rfl, classify_empty_assignees_unassigned 0 1700000000000 "L" "general" _ rfl⟩

/-- C7: a raw task with a non-empty assignee list, no due date and status
other than `complete` is classified `no_due_date`; this branch is tested
before the completion and overdue branches. -/
theorem classify_no_due_date (tz nowMs : Int) (ln lt : String) (t : RawTask)
    (h1 : t.assignees ≠ []) (h2 : t.due = none) (h3 : t.status ≠ "complete") :
    classify tz nowMs ln lt t =
      some ⟨t.name, t.id, t.assignees, "no_due_date", ln, lt⟩ := by
  simp [classify, h1, h2, h3]

/-- Witness for C7 at a concrete task. -/
theorem classify_no_due_date_witness :
    (RawTask.mk "t2" "Write docs" "open" none none ["alice"]).assignees ≠ [] ∧
    (RawTask.mk "t2" "Write docs" "open" none none ["alice"]).due = none ∧
    (RawTask.mk "t2" "Write docs" "open" none none ["alice"]).status ≠ "complete" ∧
    classify 0 1700000000000 "L" "general"
        (RawTask.mk "t2" "Write docs" "open" none none ["alice"]) =
      some ⟨"Write docs", "t2", ["alice"], "no_due_date", "L", "general"⟩ :=
  ⟨by decide, rfl, by decide,
    classify_no_due_date 0 1700000000000 "L" "general" _ (by decide) rfl (by decide)⟩

/-- C5: a task with status `complete` and non-empty assignees is
classified `completed` when its completion timestamp is present,
parseable and satisfies `now - completed_at <= 24h` (the trailing
24-hour window); when the timestamp is absent, malformed, or older than
24 hours, the task is silently dropped (no classified task at all). -/
theorem classify_completed_iff_window (tz nowMs : Int) (ln lt : String)
    (t : RawTask) (h1 : t.assignees ≠ []) (h2 : t.status = "complete") :
    ((∃ ms, t.dateClosed.bind parseMillis = some ms ∧ nowMs - 86400000 ≤ ms) →
      classify tz nowMs ln lt t =
        some ⟨t.name, t.id, t.assignees, "completed", ln, lt⟩) ∧
    ((∀ ms, t.dateClosed.bind parseMillis = some ms → ms < nowMs - 86400000) →
      classify tz nowMs ln lt t = none) := by
  rcases hdc : t.dateClosed with _ | f
  · constructor
    · rintro ⟨ms, hms, -⟩
      simp [hdc] at hms
    · intro _
      simp [classify, h1, h2, hdc]
  · rcases f with n | _
    · constructor
      · rintro ⟨ms, hms, hw⟩
        simp [hdc, parseMillis] at hms
        subst hms
        simp [classify, h1, h2, hdc, parseMillis, hw]
      · intro hall
        have hn := hall n (by simp [hdc, parseMillis])
        simp [classify, h1, h2, hdc, parseMillis]
        omega
    · constructor
      · rintro ⟨ms, hms, -⟩
        simp [hdc, parseMillis] at hms
      · intro _
        simp [classify, h1, h2, hdc, parseMillis]

/-- Witness for C5: a task completed 23 hours before run time is
classified `completed` (and the same theorem also covers the drop
branch). -/
theorem classify_completed_iff_window_witness :
    (RawTask.mk "t3" "Ship it" "complete" none (some (.num 1699917200000)) ["bob"]).assignees ≠ [] ∧
    (RawTask.mk "t3" "Ship it" "complete" none (some (.num 1699917200000)) ["bob"]).status = "complete" ∧
    classify 0 1700000000000 "L" "general"
        (RawTask.mk "t3" "Ship it" "complete" none (some (.num 1699917200000)) ["bob"]) =
      some ⟨"Ship it", "t3", ["bob"], "completed", "L", "general"⟩ :=
  ⟨by decide, rfl,
    (classify_completed_iff_window 0 1700000000000 "L" "general" _ (by decide) rfl).1
      ⟨1699917200000, by decide, by decide⟩⟩

/-- C6: for a non-complete task with non-empty assignees and a parseable
due date, the classifier compares calendar days: same day as today gives
`due_today`; an earlier day gives the overdue tag with the whole-day
difference (which is then at least 1); a later day drops the task. -/
theorem classify_due_date_buckets (tz nowMs : Int) (ln lt : String) (t : RawTask)
    (ms : Int) (h1 : t.assignees ≠ []) (h2 : t.status ≠ "complete")
    (h3 : t.due.bind parseMillis = some ms) :
    (msToDay tz ms = msToDay tz nowMs →
      classify tz nowMs ln lt t =
        some ⟨t.name, t.id, t.assignees, "due_today", ln, lt⟩) ∧
    (msToDay tz ms < msToDay tz nowMs →
      1 ≤ msToDay tz nowMs - msToDay tz ms ∧
      classify tz nowMs ln lt t =
        some ⟨t.name, t.id, t.assignees,
          "overdue_" ++ intToDecimal (msToDay tz nowMs - msToDay tz ms), ln, lt⟩) ∧
    (msToDay tz nowMs < msToDay tz ms →
      classify tz nowMs ln lt t = none) := by
  rcases hdue : t.due with _ | f
  · simp [hdue] at h3
  · rcases f with n | _
    · have hn : n = ms := by simpa [hdue, parseMillis] using h3
      subst hn
      refine ⟨?_, ?_, ?_⟩
      · intro he
        simp [classify, h1, h2, hdue, parseMillis, he]
      · intro hlt
        refine ⟨by omega, ?_⟩
        have hne : ¬ (msToDay tz n = msToDay tz nowMs) := by omega
        simp [classify, h1, h2, hdue, parseMillis, hne, hlt]
      · intro hgt
        have hne : ¬ (msToDay tz n = msToDay tz nowMs) := by omega
        have hnlt : ¬ (msToDay tz n < msToDay tz nowMs) := by omega
        simp [classify, h1, h2, hdue, parseMillis, hne, hnlt]
    · simp [hdue, parseMillis] at h3

/-- Witness for C6: a task due 5 whole days before run time yields the
`overdue_5` tag. -/
theorem classify_due_date_buckets_witness :
    (RawTask.mk "t4" "Refactor" "open" (some (.num 1699568000000)) none
        ["carol"]).due.bind parseMillis = some 1699568000000 ∧
    msToDay 0 1699568000000 < msToDay 0 1700000000000 ∧
    msToDay 0 1700000000000 - msToDay 0 1699568000000 = 5 ∧
    classify 0 1700000000000 "L" "general"
        (RawTask.mk "t4" "Refactor" "open" (some (.num 1699568000000)) none ["carol"]) =
      some ⟨"Refactor", "t4", ["carol"], "overdue_5", "L", "general"⟩ := by
  refine ⟨rfl, by decide, by decide, ?_⟩
  have h := (classify_due_date_buckets 0 1700000000000 "L" "general"
      (RawTask.mk "t4" "Refactor" "open" (some (.num 1699568000000)) none ["carol"])
      1699568000000 (by decide) (by decide) rfl).2.1 (by decide)
  rw [h.2]
  simp [msToDay, intToDecimal, natToDecimal, natToRev, digitChar]

/- ### Dispatch loop and run gate theorems -/

theorem countDelays_cons_sent (i : Nat) (l : List DispatchEvent) :
    countDelays (.sent i :: l) = countDelays l := by
  simp [countDelays]

theorem countDelays_cons_sendFailed (i : Nat) (l : List DispatchEvent) :
    countDelays (.sendFailed i :: l) = countDelays l := by
  simp [countDelays]

theorem countDelays_cons_delayed (i : Nat) (l : List DispatchEvent) :
    countDelays (.delayed i :: l) = countDelays l + 1 := by
  simp [countDelays, List.countP_cons]

/-- C2 counterexample: dispatching 3 tasks where the first send fails
issues only 1 pacing delay, not the 2 the claim asserts — the sleep sits
inside the `try` block after the send, so a failed send skips it. -/
theorem dispatch_three_with_failure_counterexample :
    countDelays (dispatch_loop [false, true, true]) = 1 ∧ (1 : Nat) ≠ 3 - 1 := by
  decide

/-- C2 amended: a pacing delay is issued exactly after each successful
send other than the one for the last task — failed sends skip the delay —
and never after the last task; in particular 3 tasks whose sends all
succeed issue exactly 2 delays. -/
theorem dispatch_pacing_amended :
    (∀ rs : List Bool, countDelays (dispatch_loop rs) = (rs.dropLast).count true) ∧
    countDelays (dispatch_loop [true, true, true]) = 2 := by
  have key : ∀ (rs : List Bool) (i : Nat),
      countDelays (dispatch_go i rs) = (rs.dropLast).count true := by
    intro rs
    induction rs with
    | nil => intro i; simp [dispatch_go, countDelays]
    | cons r rs ih =>
      intro i
      rcases rs with _ | ⟨r2, rs2⟩
      · cases r <;> simp [dispatch_go, countDelays]
      · rw [dispatch_go]
        cases r
        · simp only [Bool.false_eq_true, if_false, countDelays_cons_sendFailed]
          rw [ih (i + 1)]
          simp [List.count_cons, List.dropLast]
        · simp only [if_true, reduceIte, List.cons_ne_self]
          have hne : (r2 :: rs2 : List Bool) ≠ [] := by simp
          rw [if_neg hne]
          simp only [List.cons_append, List.nil_append, countDelays_cons_sent,
            countDelays_cons_delayed]
          rw [ih (i + 1)]
          simp [List.count_cons, List.dropLast]
  exact ⟨fun rs => key rs 1, by decide⟩

/-- C10: on a Saturday or Sunday (`weekday() >= 5`) `run_bot` returns
normally before validating the environment — for every environment,
including one where every required variable is absent — and without
fetching or dispatching anything. -/
theorem run_bot_weekend_short_circuit (w : Nat) (env : String → Option String)
    (sendResults : List Bool) (h : 5 ≤ w) :
    run_bot w env sendResults = .weekendSkip := by
  simp [run_bot, h]

/-- Witness for C10: a Sunday run with every required environment
variable absent still exits with the weekend skip. -/
theorem run_bot_weekend_short_circuit_witness :
    5 ≤ 6 ∧
    required_vars.filter (fun v => envFalsy ((fun (_ : String) => (none : Option String)) v)) =
      required_vars ∧
    run_bot 6 (fun _ => none) [true] = .weekendSkip :=
  ⟨by decide, by decide,
    run_bot_weekend_short_circuit 6 (fun _ => none) [true] (by decide)⟩

/- ### Name mapper theorems -/

/-- C4 counterexample: with a loaded configuration whose
`default_mention` is `@here`, resolving an empty or absent assignee list
still returns the literal `@channel`, not the configured default. -/
theorem resolve_empty_counterexample :
    (MentionConfig.mk [] "@here" "use_clickup_name").default_mention = "@here" ∧
    get_slack_usernames (MentionConfig.mk [] "@here" "use_clickup_name") (.listArg []) =
      "@channel" ∧
    get_slack_usernames (MentionConfig.mk [] "@here" "use_clickup_name") .nullArg =
      "@channel" ∧
    ("@channel" : String) ≠ "@here" := by
  decide

/-- C4 amended: `resolve([])` and `resolve(None)` both return the
hard-coded literal `@channel` for every loaded mapping configuration;
this coincides with the configured `default_mention` only when that is
itself `@channel`. -/
theorem resolve_empty_literal_channel (cfg : MentionConfig) :
    get_slack_usernames cfg .nullArg = "@channel" ∧
    get_slack_usernames cfg (.listArg []) = "@channel" := by
  exact ⟨rfl, by simp [get_slack_usernames]⟩

/-- The duplicate-avoiding accumulation loop of `get_slack_usernames`
resolves each name independently and equals the spec's first-seen
de-duplication of the independently resolved mention tokens. -/
theorem foldl_mentionStep_eq (cfg : MentionConfig) :
    ∀ (names : List String) (acc : List String),
      names.foldl (mentionStep cfg) acc =
        acc ++ dedup_first_aux acc (names.map (get_slack_username cfg)) := by
  intro names
  induction names with
  | nil => intro acc; simp [dedup_first_aux]
  | cons a ns ih =>
    intro acc
    simp only [List.foldl_cons, List.map_cons, dedup_first_aux]
    by_cases hm : get_slack_username cfg a ∈ acc
    · rw [if_pos hm]
      have hstep : mentionStep cfg acc a = acc := by simp [mentionStep, hm]
      rw [hstep, ih acc]
    · rw [if_neg hm]
      have hstep : mentionStep cfg acc a = acc ++ [get_slack_username cfg a] := by
        simp [mentionStep, hm]
      rw [hstep, ih (acc ++ [get_slack_username cfg a])]
      simp

/-- C8: resolving a non-empty list of names resolves each name
independently, de-duplicates the mention tokens preserving first-seen
order, and joins them in natural-language style (one alone; two as
`A and B`; three or more Oxford-comma style); in particular, with no
mappings and the use-source-name fallback,
`resolve(["alice","bob","carol"])` is `"alice, bob, and carol"`. -/
theorem get_slack_usernames_list_spec (cfg : MentionConfig) (names : List String)
    (h : names ≠ []) :
    get_slack_usernames cfg (.listArg names) =
      oxford_join (dedup_first (names.map (get_slack_username cfg))) ∧
    get_slack_usernames defaultMentionConfig (.listArg ["alice", "bob", "carol"]) =
      "alice, bob, and carol" := by
  refine ⟨?_, by decide⟩
  rcases names with _ | ⟨n, ns⟩
  · exact absurd rfl h
  · simp only [get_slack_usernames]
    rw [if_neg (by simp : ¬ (n :: ns : List String) = [])]
    rw [foldl_mentionStep_eq cfg (n :: ns) []]
    simp only [List.nil_append, List.map_cons, dedup_first]
    rw [show dedup_first_aux []
        ((get_slack_username cfg n) :: ns.map (get_slack_username cfg)) =
      (get_slack_username cfg n) :: dedup_first_aux [get_slack_username cfg n]
        (ns.map (get_slack_username cfg)) by simp [dedup_first_aux]]
    rcases hrest : dedup_first_aux [get_slack_username cfg n]
        (ns.map (get_slack_username cfg)) with _ | ⟨b, bs⟩
    · simp [oxford_join]
    · rcases bs with _ | ⟨c, cs⟩
      · simp [oxford_join]
      · simp [oxford_join]

/-- Witness for C8, instantiating the refinement at the concrete
three-name example with the default (no-mapping, use-source-name)
configuration. -/
theorem get_slack_usernames_list_spec_witness :
    (["alice", "bob", "carol"] : List String) ≠ [] ∧
    (get_slack_usernames defaultMentionConfig (.listArg ["alice", "bob", "carol"]) =
      oxford_join (dedup_first (["alice", "bob", "carol"].map
        (get_slack_username defaultMentionConfig))) ∧
    get_slack_usernames defaultMentionConfig (.listArg ["alice", "bob", "carol"]) =
      "alice, bob, and carol") :=
  ⟨by decide,
    get_slack_usernames_list_spec defaultMentionConfig ["alice", "bob", "carol"]
      (by decide)⟩

/- ### Decimal and parsing lemmas (used by the composer theorems) -/

theorem digitChar_bounds (r : Nat) :
    48 ≤ (digitChar r).toNat ∧ (digitChar r).toNat ≤ 57 := by
  unfold digitChar
  split <;> decide

theorem digitVal?_digitChar (r : Nat) (h : r < 10) :
    digitVal? (digitChar r) = some r := by
  interval_cases r <;> decide

theorem natToRev_digit_bounds (n : Nat) :
    ∀ c ∈ natToRev n, 48 ≤ c.toNat ∧ c.toNat ≤ 57 := by
  induction n using Nat.strong_induction_on with
  | _ n ih =>
    cases n with
    | zero => simp [natToRev]
    | succ m =>
      rw [natToRev]
      intro c hc
      rcases List.mem_cons.mp hc with h | h
      · subst h
        exact digitChar_bounds _
      · exact ih ((m + 1) / 10) (Nat.div_lt_self (Nat.succ_pos m) (by omega)) c h

theorem parseDigitsAux_append (xs ys : List Char) : ∀ acc : Nat,
    parseDigitsAux acc (xs ++ ys) =
      match parseDigitsAux acc xs with
      | some a => parseDigitsAux a ys
      | none => none := by
  induction xs with
  | nil => intro acc; simp [parseDigitsAux]
  | cons c cs ih =>
    intro acc
    simp only [List.cons_append, parseDigitsAux]
    cases hv : digitVal? c <;> simp [hv, ih]

theorem parseDigitsAux_natToRev (n : Nat) : ∀ acc : Nat,
    parseDigitsAux acc ((natToRev n).reverse) =
      some (acc * 10 ^ (natToRev n).length + n) := by
  induction n using Nat.strong_induction_on with
  | _ n ih =>
    cases n with
    | zero => intro acc; simp [natToRev, parseDigitsAux]
    | succ m =>
      intro acc
      rw [natToRev]
      simp only [List.reverse_cons, List.length_cons]
      rw [parseDigitsAux_append]
      rw [ih ((m + 1) / 10) (Nat.div_lt_self (Nat.succ_pos m) (by omega)) acc]
      simp only [parseDigitsAux]
      rw [digitVal?_digitChar ((m + 1) % 10) (Nat.mod_lt _ (by omega))]
      simp only [parseDigitsAux]
      have hdm : 10 * ((m + 1) / 10) + (m + 1) % 10 = m + 1 :=
        Nat.div_add_mod (m + 1) 10
      set A := acc * 10 ^ (natToRev ((m + 1) / 10)).length with hA
      rw [pow_succ, ← mul_assoc, ← hA]
      congr 1
      omega

theorem natToRev_ne_nil (n : Nat) (h : 1 ≤ n) : natToRev n ≠ [] := by
  cases n with
  | zero => omega
  | succ m => rw [natToRev]; simp

theorem parseDigits_natToDecimal_pos (n : Nat) (h : 1 ≤ n) :
    parseDigits (natToDecimal n).data = some n := by
  unfold natToDecimal
  rw [if_neg (by omega)]
  show parseDigits ((natToRev n).reverse) = some n
  unfold parseDigits
  rw [if_neg (by simpa using natToRev_ne_nil n h)]
  rw [parseDigitsAux_natToRev n 0]
  simp

theorem intToDecimal_pos_data_bounds (d : Int) (hd : 1 ≤ d) :
    ∀ c ∈ (intToDecimal d).data, 48 ≤ c.toNat ∧ c.toNat ≤ 57 := by
  unfold intToDecimal
  rw [if_neg (by omega)]
  unfold natToDecimal
  rw [if_neg (by omega)]
  intro c hc
  exact natToRev_digit_bounds d.toNat c (by simpa using hc)

theorem intToDecimal_no_underscore (d : Int) (hd : 1 ≤ d) :
    '_' ∉ (intToDecimal d).data := by
  intro hm
  have := (intToDecimal_pos_data_bounds d hd '_' hm).2
  simp at this

theorem pyIntChars?_intToDecimal (d : Int) (hd : 1 ≤ d) :
    pyIntChars? (intToDecimal d).data = some d := by
  have h0 : intToDecimal d = natToDecimal d.toNat := by
    unfold intToDecimal
    rw [if_neg (by omega)]
  have hn : 1 ≤ d.toNat := by omega
  obtain ⟨c, cs, hcons⟩ : ∃ c cs, (natToDecimal d.toNat).data = c :: cs := by
    unfold natToDecimal
    rw [if_neg (by omega)]
    show ∃ c cs, (natToRev d.toNat).reverse = c :: cs
    rcases hrev : (natToRev d.toNat).reverse with _ | ⟨c, cs⟩
    · exact absurd (by simpa using hrev) (natToRev_ne_nil d.toNat hn)
    · exact ⟨c, cs, rfl⟩
  have hcb : 48 ≤ c.toNat ∧ c.toNat ≤ 57 := by
    have : c ∈ (intToDecimal d).data := by
      rw [h0, hcons]
      exact List.mem_cons_self c cs
    exact intToDecimal_pos_data_bounds d hd c this
  have hcm : c ≠ '-' := by
    intro he
    have := congrArg Char.toNat he
    simp at this
    omega
  have hcp : c ≠ '+' := by
    intro he
    have := congrArg Char.toNat he
    simp at this
    omega
  rw [h0, hcons]
  simp only [pyIntChars?]
  rw [if_neg hcm, if_neg hcp]
  rw [← hcons, parseDigits_natToDecimal_pos d.toNat hn]
  simp [Int.toNat_of_nonneg (by omega : (0 : Int) ≤ d)]

theorem pySplitChars_of_not_mem (sep : Char) (xs : List Char) (h : sep ∉ xs) :
    pySplitChars sep xs = [xs] := by
  induction xs with
  | nil => rfl
  | cons c cs ih =>
    have hc : c ≠ sep := fun he => h (he ▸ List.mem_cons_self c cs)
    have hcs : sep ∉ cs := fun hm => h (List.mem_cons_of_mem c hm)
    simp only [pySplitChars]
    rw [if_neg hc, ih hcs]

theorem pySplitChars_append_sep (sep : Char) (xs ys : List Char) (h : sep ∉ xs) :
    pySplitChars sep (xs ++ sep :: ys) = xs :: pySplitChars sep ys := by
  induction xs with
  | nil =>
    simp only [List.nil_append, pySplitChars, if_pos]
  | cons c cs ih =>
    have hc : c ≠ sep := fun he => h (he ▸ List.mem_cons_self c cs)
    have hcs : sep ∉ cs := fun hm => h (List.mem_cons_of_mem c hm)
    simp only [List.cons_append, pySplitChars, List.append_eq]
    rw [if_neg hc, ih hcs]

theorem pySplitChars_overdueTag (d : Int) (hd : 1 ≤ d) :
    pySplitChars '_' ("overdue_" ++ intToDecimal d).data =
      ["overdue".data, (intToDecimal d).data] := by
  rw [String.data_append]
  rw [show "overdue_".data = "overdue".data ++ ['_'] from by decide]
  rw [List.append_assoc]
  rw [show (['_'] ++ (intToDecimal d).data : List Char) =
    '_' :: (intToDecimal d).data from rfl]
  rw [pySplitChars_append_sep '_' _ _ (by decide)]
  rw [pySplitChars_of_not_mem '_' _ (intToDecimal_no_underscore d hd)]

theorem strStartsWith_append_self (s : String) :
    strStartsWith ("overdue_" ++ s) "overdue_" = true := by
  simp [strStartsWith, String.data_append, List.isPrefixOf_iff_prefix]

theorem pyGet_of_lt (l : List String) (i : Int) (h0 : 0 ≤ i)
    (h : i.toNat < l.length) : ∃ s, pyGet l i = some s := by
  unfold pyGet
  rw [if_pos h0]
  exact ⟨_, List.get?_eq_get h⟩

theorem msg_ne_empty (h i n : String) : h ++ "\n" ++ i ++ ": " ++ n ≠ "" := by
  intro he
  have hlen := congrArg String.length he
  simp only [String.length_append] at hlen
  rw [show ("\n" : String).length = 1 from rfl,
    show (": " : String).length = 2 from rfl,
    show ("" : String).length = 0 from rfl] at hlen
  omega

theorem overdue_prompt_ok (name m : String) (d : Int) (isCeo : Bool) (hd : 1 ≤ d) :
    ∃ p, overdue_prompt name m d isCeo = some p := by
  cases isCeo
  · unfold overdue_prompt
    simp only [Bool.false_eq_true, if_false]
    split
    · exact ⟨_, rfl⟩
    · split
      · exact ⟨_, rfl⟩
      · split <;> exact ⟨_, rfl⟩
  · unfold overdue_prompt
    simp only [if_true]
    apply pyGet_of_lt
    · omega
    · have hlen : (ceoPromptList name d).length = 3 := by simp [ceoPromptList]
      rw [hlen]
      omega

theorem get_ceo_overdue_fallback_ok (m : String) (d : Int) (hd : 1 ≤ d) :
    ∃ fb, get_ceo_overdue_fallback m d = some fb := by
  unfold get_ceo_overdue_fallback
  apply pyGet_of_lt
  · omega
  · have hlen : (ceoFallbackList m d).length = 5 := by simp [ceoFallbackList]
    rw [hlen]
    omega

theorem get_overdue_fallback_ok (m : String) (d : Int) (hd : 1 ≤ d) :
    ∃ fb, get_overdue_fallback m d = some fb := by
  unfold get_overdue_fallback
  by_cases h2 : d ≤ 2
  · rw [if_pos h2]
    apply pyGet_of_lt
    · omega
    · have hlen : (lightFallbackList m d).length = 3 := by simp [lightFallbackList]
      rw [hlen]
      omega
  · rw [if_neg h2]
    split
    · exact ⟨_, rfl⟩
    · split <;> exact ⟨_, rfl⟩

theorem generate_overdue_message_ok (gen : GenBackend)
    (task_name task_id user_mentions : String) (d : Int) (isCeo : Bool)
    (hd : 1 ≤ d) :
    ∃ humor, generate_overdue_message gen task_name task_id user_mentions d isCeo =
      Except.ok (humor ++ "\n" ++ task_id ++ ": " ++ task_name) := by
  obtain ⟨p, hp⟩ := overdue_prompt_ok task_name user_mentions d isCeo hd
  cases isCeo
  · obtain ⟨fb, hfb⟩ := get_overdue_fallback_ok user_mentions d hd
    cases hgen : gen ("You write messages using very simple English. Use words that a 5-year-old can understand. No big words, no jargon, no technical terms." ++
        (if (false : Bool) then " Always be respectful and funny when talking about the CEO/boss." else "")) p with
    | ok body =>
      refine ⟨body.trim, ?_⟩
      simp at hgen
      simp [generate_overdue_message, hp, hgen]
    | error e =>
      refine ⟨fb, ?_⟩
      simp at hgen
      simp [generate_overdue_message, hp, hgen, hfb]
  · obtain ⟨fb, hfb⟩ := get_ceo_overdue_fallback_ok user_mentions d hd
    cases hgen : gen ("You write messages using very simple English. Use words that a 5-year-old can understand. No big words, no jargon, no technical terms." ++
        (if (true : Bool) then " Always be respectful and funny when talking about the CEO/boss." else "")) p with
    | ok body =>
      refine ⟨body.trim, ?_⟩
      simp at hgen
      simp [generate_overdue_message, hp, hgen]
    | error e =>
      refine ⟨fb, ?_⟩
      simp at hgen
      simp [generate_overdue_message, hp, hgen, hfb]

theorem generate_message_base_eq (cfg : MentionConfig) (gen : GenBackend)
    (task_name task_id : String) (assignees : List String) (status : String)
    (k : String) (hk : k ≠ "")
    (hsw : strStartsWith status "overdue_" = false) (p : String)
    (hp : category_prompt (get_slack_usernames cfg (.listArg assignees))
      task_name status = some p) :
    generate_message cfg gen task_name task_id assignees status (some k) =
      match gen "You write short, funny messages using very simple English. Use words that a 5-year-old can understand. No big words, no jargon, no technical terms. Talk like you\x27re chatting with friends. Be funny but keep it simple and friendly." p with
      | .ok body => .ok (body.trim ++ "\n" ++ task_id ++ ": " ++ task_name)
      | .error _ =>
        .ok (get_fallback_message cfg task_name assignees status ++ "\n" ++
          task_id ++ ": " ++ task_name) := by
  simp [generate_message, hk, hsw, hp]

/-- C3: for every classified task status and every generation backend
(including one that always fails), `generate_message` with a present API
key never raises: it returns a non-empty message of the form
`humor ++ "\n" ++ task_id ++ ": " ++ task_name`, whose second line is
the task identifier and name — a backend failure is recovered locally by
the deterministic fallback text. -/
theorem generate_message_never_raises (cfg : MentionConfig) (gen : GenBackend)
    (task_name task_id : String) (assignees : List String) (status : String)
    (k : String) (hs : ClassifiedStatus status) (hk : k ≠ "") :
    ∃ humor,
      generate_message cfg gen task_name task_id assignees status (some k) =
        Except.ok (humor ++ "\n" ++ task_id ++ ": " ++ task_name) ∧
      humor ++ "\n" ++ task_id ++ ": " ++ task_name ≠ "" := by
  have base : ∀ st : String, strStartsWith st "overdue_" = false →
      (∃ p, category_prompt (get_slack_usernames cfg (.listArg assignees))
        task_name st = some p) →
      ∃ humor,
        generate_message cfg gen task_name task_id assignees st (some k) =
          Except.ok (humor ++ "\n" ++ task_id ++ ": " ++ task_name) ∧
        humor ++ "\n" ++ task_id ++ ": " ++ task_name ≠ "" := by
    intro st hsw ⟨p, hp⟩
    rw [generate_message_base_eq cfg gen task_name task_id assignees st k hk hsw p hp]
    cases hgen : gen "You write short, funny messages using very simple English. Use words that a 5-year-old can understand. No big words, no jargon, no technical terms. Talk like you\x27re chatting with friends. Be funny but keep it simple and friendly." p with
    | ok body => exact ⟨body.trim, rfl, msg_ne_empty _ _ _⟩
    | error e =>
      exact ⟨get_fallback_message cfg task_name assignees st, rfl, msg_ne_empty _ _ _⟩
  rcases hs with h | h | h | h | ⟨d, hd, h⟩ <;> subst h
  · exact base "completed" (by decide) ⟨_, rfl⟩
  · exact base "due_today" (by decide) ⟨_, rfl⟩
  · exact base "unassigned" (by decide) ⟨_, rfl⟩
  · exact base "no_due_date" (by decide) ⟨_, rfl⟩
  · have heq : generate_message cfg gen task_name task_id assignees
        ("overdue_" ++ intToDecimal d) (some k) =
        generate_overdue_message gen task_name task_id
          (get_slack_usernames cfg (.listArg assignees)) d
          (is_ceo_task cfg assignees) := by
      have hsplit : pySplitChars '_'
          ('o' :: 'v' :: 'e' :: 'r' :: 'd' :: 'u' :: 'e' :: '_' :: (intToDecimal d).data) =
          [['o', 'v', 'e', 'r', 'd', 'u', 'e'], (intToDecimal d).data] := by
        simpa using pySplitChars_overdueTag d hd
      simp [generate_message, hk, strStartsWith_append_self, hsplit,
        pyIntChars?_intToDecimal d hd]
    rw [heq]
    obtain ⟨humor, hh⟩ := generate_overdue_message_ok gen task_name task_id
      (get_slack_usernames cfg (.listArg assignees)) d (is_ceo_task cfg assignees) hd
    exact ⟨humor, hh, msg_ne_empty _ _ _⟩

/-- Witness for C3: with an always-failing backend and a present API key,
composing an unassigned task and a 3-days-overdue task both return the
fallback-composed two-part message. -/
theorem generate_message_never_raises_witness :
    ClassifiedStatus "unassigned" ∧ ClassifiedStatus "overdue_3" ∧
    ("sk" : String) ≠ "" ∧
    (∃ humor,
      generate_message defaultMentionConfig (fun _ _ => .error "backend down")
          "Fix login bug" "t1" ["alice"] "unassigned" (some "sk") =
        Except.ok (humor ++ "\n" ++ "t1" ++ ": " ++ "Fix login bug") ∧
      humor ++ "\n" ++ "t1" ++ ": " ++ "Fix login bug" ≠ "") ∧
    (∃ humor,
      generate_message defaultMentionConfig (fun _ _ => .error "backend down")
          "Ship it" "t2" ["alice"] "overdue_3" (some "sk") =
        Except.ok (humor ++ "\n" ++ "t2" ++ ": " ++ "Ship it") ∧
      humor ++ "\n" ++ "t2" ++ ": " ++ "Ship it" ≠ "") := by
  have hs1 : ClassifiedStatus "unassigned" := Or.inr (Or.inr (Or.inl rfl))
  have hs2 : ClassifiedStatus "overdue_3" := by
    refine Or.inr (Or.inr (Or.inr (Or.inr ⟨3, by norm_num, ?_⟩)))
    simp [intToDecimal, natToDecimal, natToRev, digitChar]
  exact ⟨hs1, hs2, by decide,
    generate_message_never_raises _ _ _ _ _ _ _ hs1 (by decide),
    generate_message_never_raises _ _ _ _ _ _ _ hs2 (by decide)⟩

theorem pyGet_mem (l : List String) (i : Int) (h0 : 0 ≤ i)
    (h : i.toNat < l.length) : ∃ s ∈ l, pyGet l i = some s := by
  unfold pyGet
  rw [if_pos h0]
  exact ⟨l.get ⟨i.toNat, h⟩, List.get_mem l i.toNat h, List.get?_eq_get h⟩

/-- C9: for overdue tasks, a task whose assignee set resolves to the
privileged identity always receives a prompt from the fixed playful and
respectful CEO template set and a fallback from the fixed respectful CEO
fallback set, regardless of how many days overdue; otherwise the prompt
template is selected by the spec's day buckets (1-2 light, 3-5 firmer,
6-10 serious, more than 10 stern), and the deterministic fallback text is
selected by exactly the same buckets. -/
theorem overdue_register_selection (name mentions : String) (d : Int) (hd : 1 ≤ d) :
    (∀ (cfg : MentionConfig) (assignees : List String),
      is_ceo_task cfg assignees = true ↔
        ∃ a ∈ assignees, get_slack_username cfg a = ceoMention ∧ a ≠ "") ∧
    (∃ p ∈ ceoPromptList name d, overdue_prompt name mentions d true = some p) ∧
    (∃ fb ∈ ceoFallbackList mentions d,
      get_ceo_overdue_fallback mentions d = some fb) ∧
    overdue_prompt name mentions d false =
      some (registerPromptText (bucketRegister d) name mentions d) ∧
    (match bucketRegister d with
     | .light => ∃ fb ∈ lightFallbackList mentions d,
         get_overdue_fallback mentions d = some fb
     | .firmer => get_overdue_fallback mentions d = some (firmerFallbackText mentions d)
     | .serious => get_overdue_fallback mentions d = some (seriousFallbackText mentions d)
     | .stern => get_overdue_fallback mentions d = some (sternFallbackText mentions d)) := by
  refine ⟨?_, ?_, ?_, ?_, ?_⟩
  · intro cfg assignees
    simp [is_ceo_task, List.any_eq_true]
  · unfold overdue_prompt
    simp only [if_true]
    apply pyGet_mem
    · omega
    · have hlen : (ceoPromptList name d).length = 3 := by simp [ceoPromptList]
      rw [hlen]
      omega
  · unfold get_ceo_overdue_fallback
    apply pyGet_mem
    · omega
    · have hlen : (ceoFallbackList mentions d).length = 5 := by simp [ceoFallbackList]
      rw [hlen]
      omega
  · unfold overdue_prompt bucketRegister
    simp only [Bool.false_eq_true, if_false]
    split_ifs <;> rfl
  · by_cases h2 : d ≤ 2
    · have hb : bucketRegister d = .light := by simp [bucketRegister, h2]
      rw [hb]
      show ∃ fb ∈ lightFallbackList mentions d, get_overdue_fallback mentions d = some fb
      unfold get_overdue_fallback
      rw [if_pos h2]
      apply pyGet_mem
      · omega
      · have hlen : (lightFallbackList mentions d).length = 3 := by
          simp [lightFallbackList]
        rw [hlen]
        omega
    · by_cases h5 : d ≤ 5
      · have hb : bucketRegister d = .firmer := by simp [bucketRegister, h2, h5]
        rw [hb]
        show get_overdue_fallback mentions d = some (firmerFallbackText mentions d)
        unfold get_overdue_fallback
        rw [if_neg h2, if_pos h5]
      · by_cases h10 : d ≤ 10
        · have hb : bucketRegister d = .serious := by simp [bucketRegister, h2, h5, h10]
          rw [hb]
          show get_overdue_fallback mentions d = some (seriousFallbackText mentions d)
          unfold get_overdue_fallback
          rw [if_neg h2, if_neg h5, if_pos h10]
        · have hb : bucketRegister d = .stern := by simp [bucketRegister, h2, h5, h10]
          rw [hb]
          show get_overdue_fallback mentions d = some (sternFallbackText mentions d)
          unfold get_overdue_fallback
          rw [if_neg h2, if_neg h5, if_neg h10]

/-- Witness for C9 at 7 days overdue (the serious bucket). -/
theorem overdue_register_selection_witness :
    (1 : Int) ≤ 7 ∧
    ((∀ (cfg : MentionConfig) (assignees : List String),
      is_ceo_task cfg assignees = true ↔
        ∃ a ∈ assignees, get_slack_username cfg a = ceoMention ∧ a ≠ "") ∧
    (∃ p ∈ ceoPromptList "X" 7, overdue_prompt "X" "@alice" 7 true = some p) ∧
    (∃ fb ∈ ceoFallbackList "@alice" 7,
      get_ceo_overdue_fallback "@alice" 7 = some fb) ∧
    overdue_prompt "X" "@alice" 7 false =
      some (registerPromptText (bucketRegister 7) "X" "@alice" 7) ∧
    (match bucketRegister 7 with
     | .light => ∃ fb ∈ lightFallbackList "@alice" 7,
         get_overdue_fallback "@alice" 7 = some fb
     | .firmer => get_overdue_fallback "@alice" 7 = some (firmerFallbackText "@alice" 7)
     | .serious =>
         get_overdue_fallback "@alice" 7 = some (seriousFallbackText "@alice" 7)
     | .stern => get_overdue_fallback "@alice" 7 = some (sternFallbackText "@alice" 7))) :=
  ⟨by norm_num, overdue_register_selection "X" "@alice" 7 (by norm_num)⟩
